import Mathlib

/-!
# Verification of the booking scheduling core

Shallow embedding of the anchor-based booking engine:
the business configuration (`config.js`), the distance pipeline of
`mapsService.js`, and the `BookingValidator` service
(`validateBooking`, `autoScheduleBooking`, `checkDistanceFromLowell`,
`checkDistanceFromAnchor`, `checkTimeAvailability`,
`findAvailableTimeSlots`, `suggestAlternateDate`, `pickTimeSlot`,
`normalizeStartDate`, `isWorkingDay`, `shiftToWorkingDay`).

Modelling conventions:
* JS numbers are embedded as exact rationals (`ℚ`) or integers; the
  trigonometric core of the haversine formula is abstracted as an input
  (the raw great-circle separation in miles), everything downstream of it
  is embedded arithmetic-for-arithmetic.
* Calendar dates are day numbers (`Nat`), with weekday = day mod 7
  (0 = Sunday, as in JS `Date.getDay`).
* Clock times are minutes since midnight (`Nat`), the image of the
  source's `timeToMinutes` on its `"HH:MM"` strings; slot formatting back
  into strings is embedded as `formatHour`.
* The external collaborators (geocoder, pairwise distance oracle, booking
  store) are explicit function parameters; a failed geocode is `none`
  (the thrown `Address not found` error caught by the validator).
* Human-readable `message` strings of the verdicts are not modelled; the
  machine-readable fields (`valid`, `reason`, dates, distances, suggested
  times, alternate dates) all are.
-/

/-- A coordinate pair, as produced by geocoding. -/
structure Pt where
  lat : ℚ
  lng : ℚ
deriving DecidableEq

/-- A geocoding result `{lat, lng, formatted_address}`. -/
structure Location where
  lat : ℚ
  lng : ℚ
  formatted_address : String
deriving DecidableEq

/-- A distance-oracle result `{distance, duration}` (miles, minutes). -/
structure DistRes where
  distance : ℚ
  duration : ℤ
deriving DecidableEq

/-- A stored booking row, restricted to the fields the core reads. -/
structure Booking where
  customer_name : String
  address : String
  latitude : ℚ
  longitude : ℚ
  booking_time : Nat
  is_anchor : Bool
deriving DecidableEq, Inhabited

/-- An incoming booking request (`bookingRequest`). -/
structure Request where
  address : String
  booking_date : Option Nat
  booking_time : Option Nat
  preferred_start_date : Option Nat
deriving DecidableEq

/-- The machine-readable `reason` tags of the verdicts. -/
inductive Reason where
  | missing_booking_date
  | non_working_day
  | outside_service_area
  | day_full
  | anchor_booking
  | no_anchor_found
  | too_far_from_anchor
  | time_conflict
  | valid_booking
  | validation_error
  | no_slot_available
  | auto_schedule_error
deriving DecidableEq

/-- The business configuration object (`config.js`). -/
structure Config where
  BASE_LAT : ℚ
  BASE_LNG : ℚ
  MAX_SERVICE_RADIUS_MILES : ℚ
  MAX_DISTANCE_FROM_ANCHOR_MILES : ℚ
  MAX_TRAVEL_TIME_FROM_ANCHOR_MINUTES : ℤ
  MAX_BOOKINGS_PER_DAY : Nat
  DEFAULT_TIME_SLOTS : List Nat
  WORK_START_HOUR : ℤ
  WORK_END_HOUR : ℤ
  WORKING_DAYS : List Nat
  MAX_DAYS_TO_SUGGEST : Nat
deriving DecidableEq

/-- The shipped configuration values of `config.js` (times in minutes:
`08:00, 11:30, 15:00`). -/
def shippedConfig : Config where
  BASE_LAT := 426334 / 10000
  BASE_LNG := -713162 / 10000
  MAX_SERVICE_RADIUS_MILES := 70
  MAX_DISTANCE_FROM_ANCHOR_MILES := 15
  MAX_TRAVEL_TIME_FROM_ANCHOR_MINUTES := 30
  MAX_BOOKINGS_PER_DAY := 3
  DEFAULT_TIME_SLOTS := [480, 690, 900]
  WORK_START_HOUR := 0
  WORK_END_HOUR := 24
  WORKING_DAYS := [0, 1, 2, 3, 4, 5, 6]
  MAX_DAYS_TO_SUGGEST := 14

/-- The base location (`config.BASE_LOCATION`, Lowell) as a point. -/
def basePt (cfg : Config) : Pt := ⟨cfg.BASE_LAT, cfg.BASE_LNG⟩

/-- The geocoder collaborator: `mapsService.geocodeAddress`; `none` is the
thrown address-not-found error. -/
abbrev GeoOracle := String → Option Location

/-- The pairwise distance collaborator: `mapsService.getDistanceAndTime`
on two coordinate points. -/
abbrev DistOracle := Pt → Pt → DistRes

/-- The booking store collaborator: `database.getBookingsByDate`. -/
abbrev Store := Nat → List Booking

/-! ## Distance Oracle arithmetic (`mapsService.js`)

The trigonometric core of `calculateStraightLineDistance` (the value
`R * c` before its final rounding) is abstracted as the input `h`; every
arithmetic step after it is embedded exactly. -/

/-- JS `Math.floor`, in the executable form `Rat.floor`. -/
def jsFloor (q : ℚ) : ℤ := Rat.floor q

/-- JS `Math.ceil`, in the executable form `-Rat.floor (-q)`. -/
def jsCeil (q : ℚ) : ℤ := -Rat.floor (-q)

/-- JS `Math.round(q * 10) / 10` (round half toward positive infinity,
one decimal place). -/
def jsRound1 (q : ℚ) : ℚ := (jsFloor (q * 10 + 1 / 2) : ℤ) / 10

/-- `calculateStraightLineDistance`, as a function of the raw haversine
great-circle separation `h` in miles: it returns `h` rounded to one
decimal place. -/
def calculateStraightLineDistance (h : ℚ) : ℚ := jsRound1 h

/-- `getDistanceAndTime` (`mapsService.js` lines 26-56), as a function of
the raw great-circle separation `h` of the two endpoints: the straight
line distance is rounded to one decimal, multiplied by the 1.25 road
factor, the reported distance rounds that product to one decimal again,
and the duration is `Math.ceil(drivingDistance / 35 * 60)` computed from
the unrounded product. -/
def getDistanceAndTime (h : ℚ) : DistRes :=
  let distance := calculateStraightLineDistance h
  let drivingDistance := distance * (5 / 4)
  let durationInMinutes : ℤ := jsCeil (drivingDistance / 35 * 60)
  { distance := jsRound1 drivingDistance
    duration := durationInMinutes }

/-- The distance formula exactly as the spec sentence words it: haversine
separation multiplied by 1.25 and then rounded to one decimal place. -/
def specOracleDistance (h : ℚ) : ℚ := jsRound1 (h * (5 / 4))

/-- The duration formula exactly as the spec sentence words it: the
reported (rounded) distance divided by 35 mph, in minutes, rounded up. -/
def specOracleDuration (h : ℚ) : ℤ :=
  jsCeil ((getDistanceAndTime h).distance / 35 * 60)

/-- The amended distance formula: the separation is first rounded to one
decimal, then multiplied by 1.25, then rounded to one decimal again. -/
def amendedOracleDistance (h : ℚ) : ℚ := jsRound1 (jsRound1 h * (5 / 4))

/-- The amended duration formula: the pre-rounding driving distance
(rounded separation times 1.25) divided by 35 mph, in minutes, rounded
up. -/
def amendedOracleDuration (h : ℚ) : ℤ := jsCeil (jsRound1 h * (5 / 4) * 60 / 35)

/-! ## Booking validator (`BookingValidator`)

The early-return chains of the source are embedded as nested
`if`/`match`; each `if (!check) return reject` becomes
`if !check then reject else rest`. -/

/-- The result object of `checkDistanceFromLowell` and
`checkDistanceFromAnchor` (`distanceText`/`durationText` and the echoed
`anchorAddress` are presentation fields and are not modelled). -/
structure Check where
  valid : Bool
  distance : ℚ
  travelTime : ℤ
deriving DecidableEq

/-- `checkDistanceFromLowell` (lines 248-261): queries the oracle from
the base location and accepts when the distance is at most
`MAX_SERVICE_RADIUS_MILES`. -/
def checkDistanceFromLowell (cfg : Config) (dist : DistOracle) (lat lng : ℚ) : Check :=
  let result := dist (basePt cfg) ⟨lat, lng⟩
  { valid := decide (result.distance ≤ cfg.MAX_SERVICE_RADIUS_MILES)
    distance := result.distance
    travelTime := result.duration }

/-- `checkDistanceFromAnchor` (lines 266-283): queries the oracle from
the anchor's coordinates and accepts when the distance is at most
`MAX_DISTANCE_FROM_ANCHOR_MILES` and the duration at most
`MAX_TRAVEL_TIME_FROM_ANCHOR_MINUTES`. -/
def checkDistanceFromAnchor (cfg : Config) (dist : DistOracle)
    (lat lng anchorLat anchorLng : ℚ) : Check :=
  let result := dist ⟨anchorLat, anchorLng⟩ ⟨lat, lng⟩
  { valid := decide (result.distance ≤ cfg.MAX_DISTANCE_FROM_ANCHOR_MILES) &&
      decide (result.duration ≤ cfg.MAX_TRAVEL_TIME_FROM_ANCHOR_MINUTES)
    distance := result.distance
    travelTime := result.duration }

/-- `isWorkingDay` (lines 513-520): falls back to all seven weekdays when
the configured list is empty, then tests membership of the date's
weekday (day number mod 7, 0 = Sunday). -/
def isWorkingDay (cfg : Config) (day : Nat) : Bool :=
  let workingDays := if cfg.WORKING_DAYS.isEmpty then [0, 1, 2, 3, 4, 5, 6]
    else cfg.WORKING_DAYS
  workingDays.contains (day % 7)

/-- The bounded advance loop of `shiftToWorkingDay`: advances one day at
a time while the day is non-working, for at most `fuel` steps (the
source's `safety < 14` counter). -/
def shiftSteps (cfg : Config) : Nat → Nat → Nat
  | d, 0 => d
  | d, fuel + 1 => if isWorkingDay cfg d then d else shiftSteps cfg (d + 1) fuel

/-- `shiftToWorkingDay` (lines 522-534): optionally skips the start day,
then advances to the next working day with a hard 14-step cap. -/
def shiftToWorkingDay (cfg : Config) (d : Nat) (includeToday : Bool) : Nat :=
  shiftSteps cfg (if includeToday then d else d + 1) 14

/-- `String(slotTime).padStart(2, '0') + ':00'`. -/
def formatHour (n : ℤ) : String :=
  let s := toString n
  (if s.length < 2 then "0" ++ s else s) ++ ":00"

/-- One insertion step of the ascending numeric sort. -/
def insertSorted (t : ℤ) : List ℤ → List ℤ
  | [] => [t]
  | u :: rest => if t ≤ u then t :: u :: rest else u :: insertSorted t rest

/-- JS `sort((a, b) => a - b)`: ascending numeric sort. -/
def sortTimes (l : List ℤ) : List ℤ := l.foldr insertSorted []

/-- `findAvailableTimeSlots` (lines 342-386): given the day's bookings,
propose a whole-hour slot before the first booking when a 240-minute gap
fits after `workStart`, the midpoint hour of every inter-booking gap at
least 240 minutes wide beyond the leading 240-minute service block, and
a slot 240 minutes after the last booking when it fits before `workEnd`;
fall back to the `'No available slots'` sentinel when nothing fits. -/
def findAvailableTimeSlots (cfg : Config) (existingBookings : List Booking) : List String :=
  let workStart : ℤ := cfg.WORK_START_HOUR * 60
  let workEnd : ℤ := cfg.WORK_END_HOUR * 60
  let minGap : ℤ := 240
  let bookedTimes : List ℤ :=
    sortTimes (existingBookings.map (fun b => (b.booking_time : ℤ)))
  let slotsBefore : List String :=
    match bookedTimes with
    | [] => []
    | t0 :: _ =>
      if minGap ≤ t0 - workStart then
        [formatHour ((workStart + t0 - minGap).fdiv 60)]
      else []
  let slotsBetween : List String :=
    (bookedTimes.zip bookedTimes.tail).filterMap fun p =>
      let gapStart := p.1 + minGap
      let gapEnd := p.2
      if minGap ≤ gapEnd - gapStart then
        some (formatHour ((gapStart + gapEnd).fdiv 120))
      else none
  let slotsAfter : List String :=
    match bookedTimes.getLast? with
    | none => []
    | some lastTime =>
      if minGap ≤ workEnd - lastTime then
        let slotTime := (lastTime + minGap).fdiv 60
        if slotTime < cfg.WORK_END_HOUR then [formatHour slotTime] else []
      else []
  let availableSlots := slotsBefore ++ slotsBetween ++ slotsAfter
  if availableSlots.isEmpty then ["No available slots"] else availableSlots

/-- The result object of `checkTimeAvailability` (the `conflicts` detail
list is not modelled; `valid` and `suggestedTimes` are). -/
structure TimeCheck where
  valid : Bool
  suggestedTimes : Option (List String)
deriving DecidableEq

/-- `checkTimeAvailability` (lines 289-337): with no requested time or no
existing bookings the slot is free; otherwise the request conflicts when
some existing booking's time is strictly within 240 minutes of it
(absolute difference, no wraparound), and on conflict the computed open
slots are attached. -/
def checkTimeAvailability (cfg : Config) (existingBookings : List Booking)
    (requestedTime : Option Nat) : TimeCheck :=
  match requestedTime with
  | none => { valid := true, suggestedTimes := none }
  | some requestedMinutes =>
    if existingBookings.isEmpty then { valid := true, suggestedTimes := none }
    else
      let conflicts := existingBookings.filter fun b =>
        decide (((requestedMinutes : ℤ) - (b.booking_time : ℤ)).natAbs < 240)
      if conflicts.isEmpty then { valid := true, suggestedTimes := none }
      else
        { valid := false
          suggestedTimes := some (findAvailableTimeSlots cfg existingBookings) }

/-- One iteration of the first pass of `suggestAlternateDate`: an empty
working day is suggested outright; a non-full working day is suggested
when its flagged anchor passes the anchor-proximity check. -/
def alt1Day (cfg : Config) (dist : DistOracle) (store : Store)
    (lat lng : ℚ) (d : Nat) : Option Nat :=
  if !isWorkingDay cfg d then none
  else
    let bookings := store d
    if bookings.length = 0 then some d
    else if bookings.length < cfg.MAX_BOOKINGS_PER_DAY then
      match bookings.find? (fun b => b.is_anchor) with
      | some anchorBooking =>
        if (checkDistanceFromAnchor cfg dist lat lng
            anchorBooking.latitude anchorBooking.longitude).valid
        then some d else none
      | none => none
    else none

/-- First pass of `suggestAlternateDate`: scan the days after `day`, up
to `fuel` of them, for the first best-fit day. -/
def altScanP1 (cfg : Config) (dist : DistOracle) (store : Store)
    (lat lng : ℚ) : Nat → Nat → Option Nat
  | _, 0 => none
  | day, fuel + 1 =>
    match alt1Day cfg dist store lat lng (day + 1) with
    | some r => some r
    | none => altScanP1 cfg dist store lat lng (day + 1) fuel

/-- One iteration of the second pass of `suggestAlternateDate`: any
non-full working day. -/
def alt2Day (cfg : Config) (store : Store) (d : Nat) : Option Nat :=
  if !isWorkingDay cfg d then none
  else if (store d).length < cfg.MAX_BOOKINGS_PER_DAY then some d
  else none

/-- Second pass of `suggestAlternateDate`: scan the days after `day`, up
to `fuel` of them, for the first day with any availability. -/
def altScanP2 (cfg : Config) (store : Store) : Nat → Nat → Option Nat
  | _, 0 => none
  | day, fuel + 1 =>
    match alt2Day cfg store (day + 1) with
    | some r => some r
    | none => altScanP2 cfg store (day + 1) fuel

/-- `suggestAlternateDate` (lines 391-461): a best-fit pass over the next
`MAX_DAYS_TO_SUGGEST` days, then an any-availability pass, then `none`. -/
def suggestAlternateDate (cfg : Config) (dist : DistOracle) (store : Store)
    (requestedDate : Nat) (lat lng : ℚ) : Option Nat :=
  match altScanP1 cfg dist store lat lng requestedDate cfg.MAX_DAYS_TO_SUGGEST with
  | some d => some d
  | none => altScanP2 cfg store requestedDate cfg.MAX_DAYS_TO_SUGGEST

/-- The validator's verdict object. Fields the source only sets on some
paths are `Option`s defaulting to `none` (absent). `alternateDate` is
doubly optional: the outer level is presence of the key, the inner level
is the finder's possibly-`null` result. Human-readable `message` and
`details` fields are not modelled. -/
structure Verdict where
  valid : Bool
  reason : Reason
  nextWorkingDate : Option Nat := none
  isAnchor : Option Bool := none
  geocode : Option Location := none
  distanceFromLowell : Option ℚ := none
  travelTimeFromLowell : Option ℤ := none
  distanceFromAnchor : Option ℚ := none
  travelTimeFromAnchor : Option ℤ := none
  alternateDate : Option (Option Nat) := none
  suggestedTimes : Option (List String) := none
deriving DecidableEq

/-- `validateBooking` (lines 15-146): the ordered gate chain
missing-date, working-day, geocode, service-radius, capacity,
anchor-assignment, missing-anchor fallback, anchor-proximity,
time-slot, accept. -/
def validateBooking (cfg : Config) (geo : GeoOracle) (dist : DistOracle)
    (store : Store) (bookingRequest : Request) : Verdict :=
  match bookingRequest.booking_date with
  | none => { valid := false, reason := .missing_booking_date }
  | some booking_date =>
    if !isWorkingDay cfg booking_date then
      { valid := false, reason := .non_working_day
        nextWorkingDate := some (shiftToWorkingDay cfg booking_date false) }
    else
      match geo bookingRequest.address with
      | none => { valid := false, reason := .validation_error }
      | some loc =>
        let lowellCheck := checkDistanceFromLowell cfg dist loc.lat loc.lng
        if !lowellCheck.valid then
          { valid := false, reason := .outside_service_area }
        else
          let existingBookings := store booking_date
          if cfg.MAX_BOOKINGS_PER_DAY ≤ existingBookings.length then
            { valid := false, reason := .day_full
              alternateDate :=
                some (suggestAlternateDate cfg dist store booking_date loc.lat loc.lng) }
          else if existingBookings.length = 0 then
            { valid := true, reason := .anchor_booking, isAnchor := some true
              geocode := some loc
              distanceFromLowell := some lowellCheck.distance
              travelTimeFromLowell := some lowellCheck.travelTime }
          else
            match existingBookings.find? (fun b => b.is_anchor) with
            | none =>
              { valid := true, reason := .no_anchor_found, isAnchor := some false
                geocode := some loc
                distanceFromLowell := some lowellCheck.distance
                travelTimeFromLowell := some lowellCheck.travelTime }
            | some anchorBooking =>
              let anchorCheck := checkDistanceFromAnchor cfg dist loc.lat loc.lng
                anchorBooking.latitude anchorBooking.longitude
              if !anchorCheck.valid then
                { valid := false, reason := .too_far_from_anchor
                  alternateDate :=
                    some (suggestAlternateDate cfg dist store booking_date loc.lat loc.lng) }
              else
                let timeCheck :=
                  checkTimeAvailability cfg existingBookings bookingRequest.booking_time
                if !timeCheck.valid then
                  { valid := false, reason := .time_conflict
                    suggestedTimes := timeCheck.suggestedTimes }
                else
                  { valid := true, reason := .valid_booking, isAnchor := some false
                    geocode := some loc
                    distanceFromLowell := some lowellCheck.distance
                    travelTimeFromLowell := some lowellCheck.travelTime
                    distanceFromAnchor := some anchorCheck.distance
                    travelTimeFromAnchor := some anchorCheck.travelTime }

/-! ## Auto-scheduler (`autoScheduleBooking`) -/

/-- `bookings.find(b => b.is_anchor) || bookings[0]`. -/
def anchorOf (bookings : List Booking) : Booking :=
  (bookings.find? (fun b => b.is_anchor)).getD bookings.headI

/-- `pickTimeSlot` (lines 481-489): the first configured default slot not
already taken by an existing booking. -/
def pickTimeSlot (cfg : Config) (existingBookings : List Booking) : Option Nat :=
  cfg.DEFAULT_TIME_SLOTS.find? fun slot =>
    !existingBookings.any (fun b => b.booking_time == slot)

/-- `normalizeStartDate` (lines 491-507): the later of today and the
requested start (today when absent or unparseable), shifted to a working
day including the start itself. -/
def normalizeStartDate (cfg : Config) (today : Nat) (dateInput : Option Nat) : Nat :=
  match dateInput with
  | none => shiftToWorkingDay cfg today true
  | some parsed => shiftToWorkingDay cfg (if parsed < today then today else parsed) true

/-- The start date of the auto-scheduler scan:
`normalizeStartDate(bookingRequest.preferred_start_date || bookingRequest.booking_date)`. -/
def autoStartDate (cfg : Config) (today : Nat) (bookingRequest : Request) : Nat :=
  normalizeStartDate cfg today
    (match bookingRequest.preferred_start_date with
      | some p => some p
      | none => bookingRequest.booking_date)

/-- The auto-scheduler's result object (`message` not modelled). -/
structure AutoResult where
  scheduled : Bool
  valid : Bool
  reason : Option Reason := none
  booking_date : Option Nat := none
  booking_time : Option Nat := none
  isAnchor : Option Bool := none
  geocode : Option Location := none
  distanceFromLowell : Option ℚ := none
  travelTimeFromLowell : Option ℤ := none
  distanceFromAnchor : Option ℚ := none
  travelTimeFromAnchor : Option ℤ := none
deriving DecidableEq

/-- One iteration of the `autoScheduleBooking` scan (lines 172-226):
skip non-working or full days, treat an empty day as a prospective
anchor, otherwise require the anchor-proximity check against the flagged
anchor (or first booking), then take the first free default slot. -/
def tryDay (cfg : Config) (dist : DistOracle) (store : Store) (loc : Location)
    (lowellCheck : Check) (d : Nat) : Option AutoResult :=
  if !isWorkingDay cfg d then none
  else
    let bookings := store d
    if cfg.MAX_BOOKINGS_PER_DAY ≤ bookings.length then none
    else if bookings.isEmpty then
      match pickTimeSlot cfg bookings with
      | none => none
      | some suggestedTime =>
        some { scheduled := true, valid := true
               booking_date := some d, booking_time := some suggestedTime
               isAnchor := some true, geocode := some loc
               distanceFromLowell := some lowellCheck.distance
               travelTimeFromLowell := some lowellCheck.travelTime }
    else
      let anchorBooking := anchorOf bookings
      let anchorCheck := checkDistanceFromAnchor cfg dist loc.lat loc.lng
        anchorBooking.latitude anchorBooking.longitude
      if !anchorCheck.valid then none
      else
        match pickTimeSlot cfg bookings with
        | none => none
        | some suggestedTime =>
          some { scheduled := true, valid := true
                 booking_date := some d, booking_time := some suggestedTime
                 isAnchor := some false, geocode := some loc
                 distanceFromLowell := some lowellCheck.distance
                 travelTimeFromLowell := some lowellCheck.travelTime
                 distanceFromAnchor := some anchorCheck.distance
                 travelTimeFromAnchor := some anchorCheck.travelTime }

/-- The `offset` loop of `autoScheduleBooking`: try `fuel` consecutive
days starting at `d`, returning the first success. -/
def autoScan (cfg : Config) (dist : DistOracle) (store : Store) (loc : Location)
    (lowellCheck : Check) : Nat → Nat → Option AutoResult
  | _, 0 => none
  | d, fuel + 1 =>
    match tryDay cfg dist store loc lowellCheck d with
    | some r => some r
    | none => autoScan cfg dist store loc lowellCheck (d + 1) fuel

/-- `autoScheduleBooking` (lines 151-243): geocode once (a failure is the
caught `auto_schedule_error`), apply the service-radius gate once, then
scan offsets `0` through `MAX_DAYS_TO_SUGGEST` inclusive from the
normalized start date; an exhausted scan is `no_slot_available`. -/
def autoScheduleBooking (cfg : Config) (geo : GeoOracle) (dist : DistOracle)
    (store : Store) (today : Nat) (bookingRequest : Request) : AutoResult :=
  match geo bookingRequest.address with
  | none => { scheduled := false, valid := false, reason := some .auto_schedule_error }
  | some loc =>
    let lowellCheck := checkDistanceFromLowell cfg dist loc.lat loc.lng
    if !lowellCheck.valid then
      { scheduled := false, valid := false, reason := some .outside_service_area }
    else
      let startDate := autoStartDate cfg today bookingRequest
      match autoScan cfg dist store loc lowellCheck startDate
          (cfg.MAX_DAYS_TO_SUGGEST + 1) with
      | some r => r
      | none => { scheduled := false, valid := false, reason := some .no_slot_available }

/-- The first open slot as the spec sentence of C8 words it: a slot
exactly 240 minutes before the first booking, formatted to a whole-hour
boundary. -/
def specFirstSlot (t0 : ℤ) : String := formatHour ((t0 - 240).fdiv 60)

/-- A day offers an anchor fit for the candidate location when it is
empty (the candidate would become the anchor) or when its anchor — the
flagged booking or, failing that, the first booking — passes the
anchor-proximity check. -/
def dayAnchorFitOK (cfg : Config) (dist : DistOracle) (store : Store)
    (loc : Location) (d : Nat) : Prop :=
  store d = [] ∨
    (checkDistanceFromAnchor cfg dist loc.lat loc.lng
      (anchorOf (store d)).latitude (anchorOf (store d)).longitude).valid = true

instance (cfg : Config) (dist : DistOracle) (store : Store) (loc : Location)
    (d : Nat) : Decidable (dayAnchorFitOK cfg dist store loc d) := by
  unfold dayAnchorFitOK
  infer_instance

/-! ## Concrete fixtures

Closed instances of the collaborator functions used to evaluate the
theorems on concrete inputs. `wcfg` is the shipped configuration with
the base coordinates replaced by integer-valued rationals so that closed
evaluation stays in normal forms. -/

def wcfg : Config :=
  { shippedConfig with BASE_LAT := 42, BASE_LNG := -71 }

def wLoc : Location := ⟨100, 50, "10 Test St, Lowell MA"⟩

def wGeo : GeoOracle := fun _ => some wLoc

def wAnchor : Booking :=
  { customer_name := "A", address := "1 Anchor St", latitude := 1, longitude := 2
    booking_time := 480, is_anchor := true }

def wStoreAnchor : Store := fun d => if d = 10 then [wAnchor] else []

def wStoreEmpty : Store := fun _ => []

/-- Distance oracle: 20 miles / 40 minutes from the anchor (whose
latitude is 1), 10 miles / 18 minutes from anywhere else. -/
def wDistFar : DistOracle := fun o _ => if o.lat = 1 then ⟨20, 40⟩ else ⟨10, 18⟩

/-- Distance oracle: 3 miles / 8 minutes from the anchor, 10 miles / 18
minutes from anywhere else. -/
def wDistNear : DistOracle := fun o _ => if o.lat = 1 then ⟨3, 8⟩ else ⟨10, 18⟩

/-- Distance oracle: 100 miles / 200 minutes from everywhere. -/
def wDistOut : DistOracle := fun _ _ => ⟨100, 200⟩

def wReq (date : Option Nat) (time : Option Nat) : Request :=
  { address := "10 Test St, Lowell MA", booking_date := date, booking_time := time
    preferred_start_date := none }

def wFollower (t : Nat) : Booking :=
  { customer_name := "B", address := "2 Follow St", latitude := 3, longitude := 4
    booking_time := t, is_anchor := false }

/-- A store whose day 10 is at the shipped capacity of three bookings. -/
def wStoreFull : Store :=
  fun d => if d = 10 then [wAnchor, wFollower 690, wFollower 900] else []

/-- A store in which every day already holds the three default slots. -/
def wStoreAllFull : Store := fun _ => [wAnchor, wFollower 690, wFollower 900]

/-- The shipped configuration with the working day starting at 01:00
instead of 00:00. -/
def wcfgWS1 : Config := { shippedConfig with WORK_START_HOUR := 1 }

/-! ## Bridge lemmas -/

theorem jsFloor_eq (q : ℚ) : jsFloor q = ⌊q⌋ := by
  unfold jsFloor
  rw [Rat.floor_def' q, Rat.floor_def]

theorem jsCeil_eq (q : ℚ) : jsCeil q = ⌈q⌉ := by
  unfold jsCeil
  rw [Rat.floor_def' (-q), ← Rat.floor_def, Int.floor_neg, neg_neg]

theorem jsRound1_eq_of (q : ℚ) (z : ℤ) (h1 : (z : ℚ) ≤ q * 10 + 1 / 2)
    (h2 : q * 10 + 1 / 2 < z + 1) : jsRound1 q = (z : ℚ) / 10 := by
  unfold jsRound1
  rw [jsFloor_eq, Int.floor_eq_iff.mpr ⟨h1, h2⟩]

theorem jsCeil_eq_of (q : ℚ) (z : ℤ) (h1 : (z : ℚ) - 1 < q) (h2 : q ≤ z) :
    jsCeil q = z := by
  rw [jsCeil_eq, Int.ceil_eq_iff.mpr ⟨h1, h2⟩]

/-! ## Claim C6 -/

/-- C6, counterexample: at a raw great-circle separation of 1.06 miles the
code reports distance 1.4 (1.06 rounds to 1.1, times 1.25 is 1.375,
rounds to 1.4) while the spec formula gives 1.3 (1.06 times 1.25 is
1.325, rounds to 1.3); and at 1.4 miles the code reports duration 3
(1.75 / 35 * 60 = 3 exactly) while the spec formula, computed from the
reported distance 1.8, gives 4. -/
theorem oracle_rounding_counterexample :
    (getDistanceAndTime (106 / 100)).distance ≠ specOracleDistance (106 / 100) ∧
    (getDistanceAndTime (14 / 10)).duration ≠ specOracleDuration (14 / 10) := by
  have c1 : jsRound1 ((106 : ℚ) / 100) = (11 : ℤ) / 10 :=
    jsRound1_eq_of _ 11 (by norm_num) (by norm_num)
  have c2 : jsRound1 (((11 : ℤ) : ℚ) / 10 * (5 / 4)) = (14 : ℤ) / 10 :=
    jsRound1_eq_of _ 14 (by norm_num) (by norm_num)
  have c3 : jsRound1 ((106 : ℚ) / 100 * (5 / 4)) = (13 : ℤ) / 10 :=
    jsRound1_eq_of _ 13 (by norm_num) (by norm_num)
  have d1 : jsRound1 ((14 : ℚ) / 10) = (14 : ℤ) / 10 :=
    jsRound1_eq_of _ 14 (by norm_num) (by norm_num)
  have d2 : jsRound1 (((14 : ℤ) : ℚ) / 10 * (5 / 4)) = (18 : ℤ) / 10 :=
    jsRound1_eq_of _ 18 (by norm_num) (by norm_num)
  have e1 : jsCeil (((14 : ℤ) : ℚ) / 10 * (5 / 4) / 35 * 60) = 3 :=
    jsCeil_eq_of _ 3 (by norm_num) (by norm_num)
  have e2 : jsCeil (((18 : ℤ) : ℚ) / 10 / 35 * 60) = 4 :=
    jsCeil_eq_of _ 4 (by norm_num) (by norm_num)
  constructor
  · simp only [getDistanceAndTime, specOracleDistance, calculateStraightLineDistance]
    rw [c1, c2, c3]
    norm_num
  · simp only [getDistanceAndTime, specOracleDuration, calculateStraightLineDistance]
    rw [d1, d2, e1, e2]
    norm_num

/-- C6, amended: for every raw great-circle separation, the reported
distance equals the separation rounded to one decimal place, multiplied
by the road-indirection factor 1.25, and rounded to one decimal place
again; and the reported duration equals that pre-rounding driving
distance (rounded separation times 1.25) divided by 35 mph, converted to
minutes and rounded up to the next whole minute. -/
theorem oracle_distance_duration_amended (h : ℚ) :
    getDistanceAndTime h =
      { distance := amendedOracleDistance h
        duration := amendedOracleDuration h } := by
  unfold getDistanceAndTime amendedOracleDistance amendedOracleDuration
    calculateStraightLineDistance
  refine congrArg₂ DistRes.mk rfl (congrArg jsCeil ?_)
  ring

/-! ## Claim C9 -/

/-- C9: a request without a `booking_date` is rejected with
`missing_booking_date`, and the verdict is the same for every geocoder,
distance oracle and store — no external collaborator is consulted. -/
theorem missing_date_short_circuit (cfg : Config) (geo : GeoOracle)
    (dist : DistOracle) (store : Store) (req : Request)
    (hdate : req.booking_date = none) :
    validateBooking cfg geo dist store req =
      { valid := false, reason := .missing_booking_date } := by
  unfold validateBooking
  rw [hdate]

theorem missing_date_short_circuit_witness :
    validateBooking wcfg wGeo wDistNear wStoreAnchor (wReq none none) =
      { valid := false, reason := .missing_booking_date } :=
  missing_date_short_circuit wcfg wGeo wDistNear wStoreAnchor (wReq none none) rfl

/-! ## Claim C10 -/

/-- C10: under the shipped configuration, whose `WORKING_DAYS` list
contains all seven weekdays, every date is a working day, so no request
is ever rejected with `non_working_day`. -/
theorem shipped_no_non_working_day_rejection :
    (∀ d : Nat, isWorkingDay shippedConfig d = true) ∧
    (∀ (geo : GeoOracle) (dist : DistOracle) (store : Store) (req : Request),
      (validateBooking shippedConfig geo dist store req).reason ≠ .non_working_day) := by
  have hw : ∀ d : Nat, isWorkingDay shippedConfig d = true := by
    intro d
    have hlt : d % 7 < 7 := Nat.mod_lt _ (by norm_num)
    have hall : ∀ m, m < 7 → (([0, 1, 2, 3, 4, 5, 6] : List Nat).contains m = true) := by
      decide
    unfold isWorkingDay
    simpa [shippedConfig] using hall _ hlt
  refine ⟨hw, ?_⟩
  intro geo dist store req
  unfold validateBooking
  rcases req.booking_date with _ | d
  · simp
  · simp only [hw d, Bool.not_true, Bool.false_eq_true, if_false]
    rcases geo req.address with _ | loc
    · simp
    · dsimp only
      repeat' split
      all_goals simp

/-! ## Claim C4 -/

/-- C4: when the oracle reports the candidate farther from the base than
`MAX_SERVICE_RADIUS_MILES`, validation of any date rejects with
`outside_service_area`, the verdict carries no alternate-date field, and
the result is the same for every store — the alternate-date finder and
the store are never consulted. -/
theorem radius_reject_no_alternate (cfg : Config) (geo : GeoOracle)
    (dist : DistOracle) (req : Request) (d : Nat) (loc : Location)
    (hdate : req.booking_date = some d)
    (hwork : isWorkingDay cfg d = true)
    (hgeo : geo req.address = some loc)
    (hfar : cfg.MAX_SERVICE_RADIUS_MILES < (dist (basePt cfg) ⟨loc.lat, loc.lng⟩).distance) :
    ∀ store : Store,
      validateBooking cfg geo dist store req =
        { valid := false, reason := .outside_service_area } := by
  intro store
  have hv : (checkDistanceFromLowell cfg dist loc.lat loc.lng).valid = false := by
    unfold checkDistanceFromLowell
    simp only [decide_eq_false_iff_not, not_le]
    exact hfar
  unfold validateBooking
  rw [hdate]
  simp [hwork, hgeo, hv]

theorem radius_reject_no_alternate_witness :
    validateBooking wcfg wGeo wDistOut wStoreAnchor (wReq (some 10) none) =
      { valid := false, reason := .outside_service_area } :=
  radius_reject_no_alternate wcfg wGeo wDistOut (wReq (some 10) none) 10 wLoc
    rfl (by decide) rfl (by decide) wStoreAnchor

/-! ## Claim C3 -/

/-- C3: a request for a working day whose address geocodes within the
service radius, against a date with no existing bookings, is accepted as
the day's anchor (`isAnchor = true`); the verdict is the same for every
requested time and for every distance oracle agreeing on the single
base-to-candidate query, so neither the anchor-proximity gate nor the
time-slot gate is evaluated. -/
theorem empty_day_anchor_accept (cfg : Config) (geo : GeoOracle)
    (dist : DistOracle) (store : Store) (addr : String) (p : Option Nat)
    (d : Nat) (loc : Location)
    (hwork : isWorkingDay cfg d = true)
    (hgeo : geo addr = some loc)
    (hradius : (dist (basePt cfg) ⟨loc.lat, loc.lng⟩).distance ≤ cfg.MAX_SERVICE_RADIUS_MILES)
    (hmax : 0 < cfg.MAX_BOOKINGS_PER_DAY)
    (hempty : store d = []) :
    ∀ (t : Option Nat) (dist' : DistOracle),
      dist' (basePt cfg) ⟨loc.lat, loc.lng⟩ = dist (basePt cfg) ⟨loc.lat, loc.lng⟩ →
      validateBooking cfg geo dist' store ⟨addr, some d, t, p⟩ =
        { valid := true, reason := .anchor_booking, isAnchor := some true
          geocode := some loc
          distanceFromLowell := some (dist (basePt cfg) ⟨loc.lat, loc.lng⟩).distance
          travelTimeFromLowell := some (dist (basePt cfg) ⟨loc.lat, loc.lng⟩).duration } := by
  intro t dist' hagree
  have hv : checkDistanceFromLowell cfg dist' loc.lat loc.lng =
      { valid := true
        distance := (dist (basePt cfg) ⟨loc.lat, loc.lng⟩).distance
        travelTime := (dist (basePt cfg) ⟨loc.lat, loc.lng⟩).duration } := by
    unfold checkDistanceFromLowell
    rw [hagree]
    simp [decide_eq_true_eq, hradius]
  have hcap : ¬ (cfg.MAX_BOOKINGS_PER_DAY ≤ (store d).length) := by
    rw [hempty]
    simp only [List.length_nil, Nat.le_zero]
    omega
  unfold validateBooking
  simp [hwork, hgeo, hv, hcap, hempty]
  omega

theorem empty_day_anchor_accept_witness :
    validateBooking wcfg wGeo wDistNear wStoreEmpty ⟨"10 Test St, Lowell MA", some 10, some 600, none⟩ =
      { valid := true, reason := .anchor_booking, isAnchor := some true
        geocode := some wLoc
        distanceFromLowell := some 10
        travelTimeFromLowell := some 18 } := by
  have h := empty_day_anchor_accept wcfg wGeo wDistNear wStoreEmpty
    "10 Test St, Lowell MA" none 10 wLoc (by decide) rfl (by decide) (by decide) rfl
    (some 600) wDistNear rfl
  simpa using h

/-! ## Claim C2 -/

/-- C2: for a request passing the working-day, geocode and service-radius
gates, a date already holding at least `MAX_BOOKINGS_PER_DAY` bookings is
rejected with `day_full` and the verdict carries the alternate-date
finder's suggestion; a date below capacity is never rejected with
`day_full`. -/
theorem capacity_gate_day_full (cfg : Config) (geo : GeoOracle)
    (dist : DistOracle) (store : Store) (req : Request) (d : Nat) (loc : Location)
    (hdate : req.booking_date = some d)
    (hwork : isWorkingDay cfg d = true)
    (hgeo : geo req.address = some loc)
    (hradius : (dist (basePt cfg) ⟨loc.lat, loc.lng⟩).distance ≤ cfg.MAX_SERVICE_RADIUS_MILES) :
    (cfg.MAX_BOOKINGS_PER_DAY ≤ (store d).length →
      validateBooking cfg geo dist store req =
        { valid := false, reason := .day_full
          alternateDate := some (suggestAlternateDate cfg dist store d loc.lat loc.lng) }) ∧
    ((store d).length < cfg.MAX_BOOKINGS_PER_DAY →
      (validateBooking cfg geo dist store req).reason ≠ .day_full) := by
  have hv : (checkDistanceFromLowell cfg dist loc.lat loc.lng).valid = true := by
    unfold checkDistanceFromLowell
    simp [decide_eq_true_eq, hradius]
  constructor
  · intro hfull
    unfold validateBooking
    rw [hdate]
    simp [hwork, hgeo, hv, hfull]
  · intro hbelow
    have hnot : ¬ (cfg.MAX_BOOKINGS_PER_DAY ≤ (store d).length) := not_le.mpr hbelow
    unfold validateBooking
    rw [hdate]
    simp only [hwork, Bool.not_true, Bool.false_eq_true, if_false, hgeo, hv]
    repeat' split
    all_goals first
    | exact absurd (by assumption) hnot
    | simp

theorem capacity_gate_day_full_witness :
    validateBooking wcfg wGeo wDistNear wStoreFull (wReq (some 10) none) =
      { valid := false, reason := .day_full
        alternateDate :=
          some (suggestAlternateDate wcfg wDistNear wStoreFull 10 wLoc.lat wLoc.lng) } ∧
    (validateBooking wcfg wGeo wDistNear wStoreAnchor (wReq (some 10) none)).reason ≠
      .day_full :=
  ⟨(capacity_gate_day_full wcfg wGeo wDistNear wStoreFull (wReq (some 10) none) 10 wLoc
      rfl (by decide) rfl (by decide)).1 (by decide),
    (capacity_gate_day_full wcfg wGeo wDistNear wStoreAnchor (wReq (some 10) none) 10 wLoc
      rfl (by decide) rfl (by decide)).2 (by decide)⟩

/-! ## Claim C1 -/

/-- C1: for a request that reaches the anchor-proximity gate (working
day, geocoded, within the service radius, below capacity, flagged anchor
present), the validator rejects with `too_far_from_anchor` exactly when
the oracle-reported distance from the anchor exceeds
`MAX_DISTANCE_FROM_ANCHOR_MILES` or the reported duration exceeds
`MAX_TRAVEL_TIME_FROM_ANCHOR_MINUTES`; the gate passes only when both
are within their thresholds. -/
theorem anchor_proximity_or_semantics (cfg : Config) (geo : GeoOracle)
    (dist : DistOracle) (store : Store) (req : Request) (d : Nat)
    (loc : Location) (a : Booking)
    (hdate : req.booking_date = some d)
    (hwork : isWorkingDay cfg d = true)
    (hgeo : geo req.address = some loc)
    (hradius : (dist (basePt cfg) ⟨loc.lat, loc.lng⟩).distance ≤ cfg.MAX_SERVICE_RADIUS_MILES)
    (hcap : (store d).length < cfg.MAX_BOOKINGS_PER_DAY)
    (hanchor : (store d).find? (fun b => b.is_anchor) = some a) :
    (validateBooking cfg geo dist store req).reason = .too_far_from_anchor ↔
      (cfg.MAX_DISTANCE_FROM_ANCHOR_MILES <
          (dist ⟨a.latitude, a.longitude⟩ ⟨loc.lat, loc.lng⟩).distance ∨
        cfg.MAX_TRAVEL_TIME_FROM_ANCHOR_MINUTES <
          (dist ⟨a.latitude, a.longitude⟩ ⟨loc.lat, loc.lng⟩).duration) := by
  have hv : (checkDistanceFromLowell cfg dist loc.lat loc.lng).valid = true := by
    unfold checkDistanceFromLowell
    simp [decide_eq_true_eq, hradius]
  have hnotfull : ¬ (cfg.MAX_BOOKINGS_PER_DAY ≤ (store d).length) := not_le.mpr hcap
  have hnil : store d ≠ [] := by
    intro h
    rw [h] at hanchor
    simp at hanchor
  have hlen : ¬ ((store d).length = 0) := by
    simpa [List.length_eq_zero] using hnil
  unfold validateBooking
  rw [hdate]
  simp only [hwork, Bool.not_true, Bool.false_eq_true, if_false, hgeo, hv, hnotfull,
    hanchor, hlen]
  by_cases hok :
      (dist ⟨a.latitude, a.longitude⟩ ⟨loc.lat, loc.lng⟩).distance ≤
          cfg.MAX_DISTANCE_FROM_ANCHOR_MILES ∧
        (dist ⟨a.latitude, a.longitude⟩ ⟨loc.lat, loc.lng⟩).duration ≤
          cfg.MAX_TRAVEL_TIME_FROM_ANCHOR_MINUTES
  · have hvalid :
        (checkDistanceFromAnchor cfg dist loc.lat loc.lng a.latitude a.longitude).valid =
          true := by
      unfold checkDistanceFromAnchor
      simp [decide_eq_true_eq, hok.1, hok.2]
    simp only [hvalid, Bool.not_true, Bool.false_eq_true, if_false]
    apply iff_of_false
    · split <;> simp
    · rw [not_or, not_lt, not_lt]
      exact ⟨hok.1, hok.2⟩
  · have hvalid :
        (checkDistanceFromAnchor cfg dist loc.lat loc.lng a.latitude a.longitude).valid =
          false := by
      unfold checkDistanceFromAnchor
      rcases not_and_or.mp hok with h | h
      · simp [decide_eq_false h]
      · simp [decide_eq_false h]
    rw [hvalid]
    exact iff_of_true rfl
      ((not_and_or.mp hok).imp (fun h => not_le.mp h) (fun h => not_le.mp h))

theorem anchor_proximity_or_semantics_witness :
    (validateBooking wcfg wGeo wDistFar wStoreAnchor (wReq (some 10) none)).reason =
      .too_far_from_anchor :=
  (anchor_proximity_or_semantics wcfg wGeo wDistFar wStoreAnchor (wReq (some 10) none)
      10 wLoc wAnchor rfl (by decide) rfl (by decide) (by decide) rfl).mpr
    (Or.inl (by decide))

/-! ## Claim C5 -/

/-- C5: for a request that supplies a time and reaches the time-slot gate
(working day, geocoded, within radius, below capacity, anchor present
and within proximity), the validator rejects with `time_conflict` if and
only if some existing booking's time is strictly within 240 minutes of
the requested time (absolute difference, no midnight wraparound); and a
request without a time is never rejected with `time_conflict`. -/
theorem time_gate_iff (cfg : Config) (geo : GeoOracle) (dist : DistOracle)
    (store : Store) (req : Request) (d : Nat) (loc : Location) (a : Booking) (t : Nat)
    (hdate : req.booking_date = some d)
    (hwork : isWorkingDay cfg d = true)
    (hgeo : geo req.address = some loc)
    (hradius : (dist (basePt cfg) ⟨loc.lat, loc.lng⟩).distance ≤ cfg.MAX_SERVICE_RADIUS_MILES)
    (hcap : (store d).length < cfg.MAX_BOOKINGS_PER_DAY)
    (hanchor : (store d).find? (fun b => b.is_anchor) = some a)
    (hanchorOK :
      (dist ⟨a.latitude, a.longitude⟩ ⟨loc.lat, loc.lng⟩).distance ≤
          cfg.MAX_DISTANCE_FROM_ANCHOR_MILES ∧
        (dist ⟨a.latitude, a.longitude⟩ ⟨loc.lat, loc.lng⟩).duration ≤
          cfg.MAX_TRAVEL_TIME_FROM_ANCHOR_MINUTES)
    (htime : req.booking_time = some t) :
    ((validateBooking cfg geo dist store req).reason = .time_conflict ↔
      ∃ b ∈ store d, ((t : ℤ) - (b.booking_time : ℤ)).natAbs < 240) ∧
    (∀ req2 : Request, req2.booking_time = none →
      (validateBooking cfg geo dist store req2).reason ≠ .time_conflict) := by
  have hv : (checkDistanceFromLowell cfg dist loc.lat loc.lng).valid = true := by
    unfold checkDistanceFromLowell
    simp [decide_eq_true_eq, hradius]
  have hnotfull : ¬ (cfg.MAX_BOOKINGS_PER_DAY ≤ (store d).length) := not_le.mpr hcap
  have hnil : store d ≠ [] := by
    intro h
    rw [h] at hanchor
    simp at hanchor
  have hlen : ¬ ((store d).length = 0) := by
    simpa [List.length_eq_zero] using hnil
  have hvalid :
      (checkDistanceFromAnchor cfg dist loc.lat loc.lng a.latitude a.longitude).valid =
        true := by
    unfold checkDistanceFromAnchor
    simp [decide_eq_true_eq, hanchorOK.1, hanchorOK.2]
  constructor
  · unfold validateBooking
    rw [hdate]
    simp only [hwork, Bool.not_true, Bool.false_eq_true, if_false, hgeo, hv, hnotfull,
      hanchor, hlen, hvalid, htime]
    by_cases hex : ∃ b ∈ store d, ((t : ℤ) - (b.booking_time : ℤ)).natAbs < 240
    · have hne :
          ((store d).filter fun b =>
            decide (((t : ℤ) - (b.booking_time : ℤ)).natAbs < 240)) ≠ [] := by
        rcases hex with ⟨b, hb, hlt⟩
        exact List.ne_nil_of_mem (List.mem_filter.mpr ⟨hb, by simpa using hlt⟩)
      have hfc : (checkTimeAvailability cfg (store d) (some t)).valid = false := by
        unfold checkTimeAvailability
        simp [List.isEmpty_iff, hnil, hne]
      rw [hfc]
      exact iff_of_true rfl hex
    · have hfilter :
          ((store d).filter fun b =>
            decide (((t : ℤ) - (b.booking_time : ℤ)).natAbs < 240)) = [] := by
        rw [List.filter_eq_nil_iff]
        intro b hb
        simp only [decide_eq_true_eq]
        exact fun hlt => hex ⟨b, hb, hlt⟩
      have htc : (checkTimeAvailability cfg (store d) (some t)).valid = true := by
        unfold checkTimeAvailability
        simp [List.isEmpty_iff, hnil, hfilter]
      apply iff_of_false
      · rw [htc]
        simp
      · exact hex
  · intro req2 h2
    have hTC : ∀ l, checkTimeAvailability cfg l req2.booking_time =
        { valid := true, suggestedTimes := none } := by
      intro l
      rw [h2]
      rfl
    unfold validateBooking
    rcases hdd : req2.booking_date with _ | d2
    · simp
    · simp only [hTC, Bool.not_true, Bool.false_eq_true, if_false]
      repeat' split
      all_goals simp

theorem time_gate_iff_witness :
    (validateBooking wcfg wGeo wDistNear wStoreAnchor (wReq (some 10) (some 500))).reason =
      .time_conflict ∧
    (validateBooking wcfg wGeo wDistNear wStoreAnchor (wReq (some 10) none)).reason ≠
      .time_conflict := by
  have h := time_gate_iff wcfg wGeo wDistNear wStoreAnchor (wReq (some 10) (some 500))
    10 wLoc wAnchor 500 rfl (by decide) rfl (by decide) (by decide) rfl
    (by decide) rfl
  exact ⟨h.1.mpr ⟨wAnchor, by decide, by decide⟩, h.2 (wReq (some 10) none) rfl⟩

/-! ## Claim C7 -/

theorem tryDay_date_of_some (cfg : Config) (dist : DistOracle) (store : Store)
    (loc : Location) (lc : Check) (d : Nat) (r : AutoResult)
    (h : tryDay cfg dist store loc lc d = some r) :
    r.booking_date = some d ∧ isWorkingDay cfg d = true := by
  by_cases hw : isWorkingDay cfg d = true
  · refine ⟨?_, hw⟩
    simp only [tryDay, hw, Bool.not_true, Bool.false_eq_true, if_false] at h
    repeat' split at h
    all_goals first
    | exact Option.noConfusion h
    | (obtain rfl := Option.some.inj h; rfl)
  · have hwf : isWorkingDay cfg d = false := by
      revert hw
      cases isWorkingDay cfg d <;> simp
    simp [tryDay, hwf] at h

theorem autoScan_eq_some (cfg : Config) (dist : DistOracle) (store : Store)
    (loc : Location) (lc : Check) (fuel : Nat) :
    ∀ (d : Nat) (r : AutoResult), autoScan cfg dist store loc lc d fuel = some r →
      ∃ k, k < fuel ∧ tryDay cfg dist store loc lc (d + k) = some r := by
  induction fuel with
  | zero =>
    intro d r h
    simp [autoScan] at h
  | succ n ih =>
    intro d r h
    unfold autoScan at h
    cases htd : tryDay cfg dist store loc lc d with
    | some r0 =>
      rw [htd] at h
      refine ⟨0, by omega, ?_⟩
      rw [Nat.add_zero, htd]
      exact h
    | none =>
      rw [htd] at h
      obtain ⟨k, hk, ht⟩ := ih (d + 1) r h
      refine ⟨k + 1, by omega, ?_⟩
      rw [show d + (k + 1) = d + 1 + k by omega]
      exact ht

theorem autoScan_eq_none (cfg : Config) (dist : DistOracle) (store : Store)
    (loc : Location) (lc : Check) (fuel : Nat) :
    ∀ d : Nat, (∀ k, k < fuel → tryDay cfg dist store loc lc (d + k) = none) →
      autoScan cfg dist store loc lc d fuel = none := by
  induction fuel with
  | zero =>
    intro d _
    rfl
  | succ n ih =>
    intro d hall
    unfold autoScan
    have h0 := hall 0 (by omega)
    rw [Nat.add_zero] at h0
    rw [h0]
    exact ih (d + 1) fun k hk => by
      have hh := hall (k + 1) (by omega)
      rwa [show d + (k + 1) = d + 1 + k by omega] at hh

theorem tryDay_eq_none (cfg : Config) (dist : DistOracle) (store : Store)
    (loc : Location) (lc : Check) (d : Nat)
    (h : isWorkingDay cfg d = true →
      ¬ (dayAnchorFitOK cfg dist store loc d ∧ pickTimeSlot cfg (store d) ≠ none)) :
    tryDay cfg dist store loc lc d = none := by
  unfold tryDay
  cases hw : isWorkingDay cfg d with
  | false => simp
  | true =>
    simp only [hw, Bool.not_true, Bool.false_eq_true, if_false]
    by_cases hfull : cfg.MAX_BOOKINGS_PER_DAY ≤ (store d).length
    · simp [hfull]
    · by_cases hempty : (store d).isEmpty
      · have hsl : pickTimeSlot cfg (store d) = none := by
          by_contra hs
          exact h hw ⟨Or.inl (List.isEmpty_iff.mp hempty), hs⟩
        simp [hfull, hempty, hsl]
      · by_cases hac : (checkDistanceFromAnchor cfg dist loc.lat loc.lng
            (anchorOf (store d)).latitude (anchorOf (store d)).longitude).valid = true
        · have hsl : pickTimeSlot cfg (store d) = none := by
            by_contra hs
            exact h hw ⟨Or.inr hac, hs⟩
          simp [hfull, hempty, hac, hsl]
        · have hacf : (checkDistanceFromAnchor cfg dist loc.lat loc.lng
              (anchorOf (store d)).latitude (anchorOf (store d)).longitude).valid = false := by
            revert hac
            cases (checkDistanceFromAnchor cfg dist loc.lat loc.lng
              (anchorOf (store d)).latitude (anchorOf (store d)).longitude).valid <;> simp
          simp [hfull, hempty, hacf]

/-- C7: for an address that geocodes within the service radius, every
date the auto-scheduler returns lies between its computed start date and
`MAX_DAYS_TO_SUGGEST` days after it and is a working day; and when no
working day in that window offers both an anchor fit and a free
preferred slot, the scheduler returns the terminal `no_slot_available`
failure. -/
theorem auto_schedule_window (cfg : Config) (geo : GeoOracle) (dist : DistOracle)
    (store : Store) (today : Nat) (req : Request) (loc : Location)
    (hgeo : geo req.address = some loc)
    (hradius : (dist (basePt cfg) ⟨loc.lat, loc.lng⟩).distance ≤ cfg.MAX_SERVICE_RADIUS_MILES) :
    (∀ d : Nat,
      (autoScheduleBooking cfg geo dist store today req).booking_date = some d →
      autoStartDate cfg today req ≤ d ∧
        d ≤ autoStartDate cfg today req + cfg.MAX_DAYS_TO_SUGGEST ∧
        isWorkingDay cfg d = true) ∧
    ((∀ k, k ≤ cfg.MAX_DAYS_TO_SUGGEST →
        isWorkingDay cfg (autoStartDate cfg today req + k) = true →
        ¬ (dayAnchorFitOK cfg dist store loc (autoStartDate cfg today req + k) ∧
            pickTimeSlot cfg (store (autoStartDate cfg today req + k)) ≠ none)) →
      autoScheduleBooking cfg geo dist store today req =
        { scheduled := false, valid := false, reason := some .no_slot_available }) := by
  have hv : (checkDistanceFromLowell cfg dist loc.lat loc.lng).valid = true := by
    unfold checkDistanceFromLowell
    simp [decide_eq_true_eq, hradius]
  have hmain : autoScheduleBooking cfg geo dist store today req =
      (match autoScan cfg dist store loc (checkDistanceFromLowell cfg dist loc.lat loc.lng)
          (autoStartDate cfg today req) (cfg.MAX_DAYS_TO_SUGGEST + 1) with
        | some r => r
        | none => { scheduled := false, valid := false, reason := some .no_slot_available }) := by
    unfold autoScheduleBooking
    rw [hgeo]
    simp only [hv, Bool.not_true, Bool.false_eq_true, if_false]
  constructor
  · intro d hd
    rw [hmain] at hd
    cases hscan : autoScan cfg dist store loc
        (checkDistanceFromLowell cfg dist loc.lat loc.lng)
        (autoStartDate cfg today req) (cfg.MAX_DAYS_TO_SUGGEST + 1) with
    | none =>
      rw [hscan] at hd
      simp at hd
    | some r =>
      rw [hscan] at hd
      obtain ⟨k, hk, ht⟩ := autoScan_eq_some cfg dist store loc
        (checkDistanceFromLowell cfg dist loc.lat loc.lng)
        (cfg.MAX_DAYS_TO_SUGGEST + 1) (autoStartDate cfg today req) r hscan
      obtain ⟨hbd, hwd⟩ := tryDay_date_of_some cfg dist store loc
        (checkDistanceFromLowell cfg dist loc.lat loc.lng)
        (autoStartDate cfg today req + k) r ht
      rw [hbd] at hd
      obtain rfl := Option.some.inj hd
      exact ⟨Nat.le_add_right _ _, by omega, hwd⟩
  · intro hall
    rw [hmain]
    have hnone : autoScan cfg dist store loc
        (checkDistanceFromLowell cfg dist loc.lat loc.lng)
        (autoStartDate cfg today req) (cfg.MAX_DAYS_TO_SUGGEST + 1) = none := by
      apply autoScan_eq_none
      intro k hk
      exact tryDay_eq_none cfg dist store loc
        (checkDistanceFromLowell cfg dist loc.lat loc.lng)
        (autoStartDate cfg today req + k)
        (fun hw => hall k (by omega) hw)
    rw [hnone]

theorem auto_schedule_window_witness :
    (autoStartDate wcfg 3 (wReq none none) ≤ 3 ∧
      3 ≤ autoStartDate wcfg 3 (wReq none none) + wcfg.MAX_DAYS_TO_SUGGEST ∧
      isWorkingDay wcfg 3 = true) ∧
    autoScheduleBooking wcfg wGeo wDistFar wStoreAllFull 3 (wReq none none) =
      { scheduled := false, valid := false, reason := some .no_slot_available } :=
  ⟨(auto_schedule_window wcfg wGeo wDistNear wStoreEmpty 3 (wReq none none) wLoc rfl
      (by decide)).1 3 rfl,
    (auto_schedule_window wcfg wGeo wDistFar wStoreAllFull 3 (wReq none none) wLoc rfl
      (by decide)).2 (by decide)⟩

/-! ## Claim C8 -/

/-- C8, counterexample: with the working window starting at 01:00 and a
single booking at 06:40 (minute 400) there is room before the first
booking (400 minus workStart 60 is 340, at least the 240-minute gap),
yet the first proposed candidate is `"03:00"` — the whole-hour floor of
`workStart + firstBooking - minGap` — and not the slot exactly 240
minutes before the first booking, whose whole-hour format is `"02:00"`. -/
theorem slots_first_candidate_counterexample :
    (240 : ℤ) ≤ 400 - wcfgWS1.WORK_START_HOUR * 60 ∧
    (findAvailableTimeSlots wcfgWS1 [wFollower 400]).head? = some "03:00" ∧
    specFirstSlot 400 = "02:00" ∧
    (findAvailableTimeSlots wcfgWS1 [wFollower 400]).head? ≠ some (specFirstSlot 400) :=
  ⟨by decide, by decide, by decide, by decide⟩

/-- C8, amended: whenever the earliest booking time `t0` leaves at least
240 minutes after `workStart`, the first proposed candidate is the
whole-hour floor of `workStart + t0 - 240` — which is exactly 240
minutes before the first booking (floored to the hour) only when
`workStart` is zero, the shipped configuration; and the slot computation
never returns an empty list, yielding the `'No available slots'`
sentinel when no slot fits. -/
theorem slots_first_and_sentinel_amended :
    (∀ (cfg : Config) (existingBookings : List Booking) (t0 : ℤ) (rest : List ℤ),
      sortTimes (existingBookings.map fun b => (b.booking_time : ℤ)) = t0 :: rest →
      (240 : ℤ) ≤ t0 - cfg.WORK_START_HOUR * 60 →
      (findAvailableTimeSlots cfg existingBookings).head? =
        some (formatHour ((cfg.WORK_START_HOUR * 60 + t0 - 240).fdiv 60))) ∧
    (∀ (cfg : Config) (existingBookings : List Booking),
      findAvailableTimeSlots cfg existingBookings ≠ []) := by
  constructor
  · intro cfg bks t0 rest hsort h240
    unfold findAvailableTimeSlots
    rw [hsort]
    simp [h240]
  · intro cfg bks
    unfold findAvailableTimeSlots
    dsimp only
    split
    · simp
    · next hne =>
      intro hc
      rw [hc] at hne
      simp at hne

theorem slots_first_and_sentinel_amended_witness :
    (findAvailableTimeSlots shippedConfig [wFollower 400]).head? =
      some (formatHour ((shippedConfig.WORK_START_HOUR * 60 + 400 - 240).fdiv 60)) ∧
    findAvailableTimeSlots shippedConfig [] ≠ [] :=
  ⟨slots_first_and_sentinel_amended.1 shippedConfig [wFollower 400] 400 [] rfl (by decide),
    slots_first_and_sentinel_amended.2 shippedConfig []⟩
